import Mathlib

/-!
Verification of the shipyard-neo sandbox orchestrator (bay core) against its
natural-language specification.  The Python sources under pkgs/bay/app are
shallowly embedded as executable Lean functions: database rows become
structures, timestamps become integers, driver and factory calls become
explicit oracle inputs, and each manager method becomes a pure function from
the pre-state (plus oracle answers) to the post-state together with the list
of committed states and external calls it performs.
-/

namespace Shipyard

/-! ## Session data model (app/models/session.py) -/

/-- Session lifecycle status, from SessionStatus in app/models/session.py. -/
inductive SessionStatus where
  | pending
  | starting
  | running
  | stopping
  | stopped
  | failed
deriving DecidableEq, Repr

/-- A session row, from the Session model in app/models/session.py.
Timestamps are integers; identifiers are strings. -/
structure Session where
  id : String
  sandbox_id : String
  runtime_type : String := "ship"
  profile_id : String := "python-default"
  container_id : Option String := none
  endpoint : Option String := none
  desired_state : SessionStatus := .pending
  observed_state : SessionStatus := .pending
  last_observed_at : Option Int := none
  created_at : Int := 0
  last_active_at : Int := 0
deriving DecidableEq, Repr

/-- Session.is_ready property: observed_state == RUNNING and endpoint is not None. -/
def Session.is_ready (s : Session) : Bool :=
  s.observed_state == .running && s.endpoint.isSome

/-! ## Driver abstraction (app/drivers/base.py) -/

/-- ContainerStatus from app/drivers/base.py. -/
inductive ContainerStatus where
  | created
  | running
  | exited
  | removing
  | not_found
deriving DecidableEq, Repr

/-- ContainerInfo from app/drivers/base.py (the fields used by SessionManager). -/
structure ContainerInfo where
  container_id : String
  status : ContainerStatus
  endpoint : Option String := none
  exit_code : Option Int := none
deriving DecidableEq, Repr

/-- One driver call performed by an embedded manager method, recorded in order. -/
inductive DriverCall where
  | create
  | start (container_id : String)
  | stop (container_id : String)
  | destroy (container_id : String)
  | statusProbe (container_id : String)
deriving DecidableEq, Repr

/-- Oracle answers for the driver calls a single SessionManager.ensure_running
invocation may make.  A value of none models the underlying call raising. -/
structure DriverStub where
  createResult : Option String := none
  startResult : Option String := none
  statusResult : Option ContainerInfo := none
deriving Repr

/-! ## SessionManager (app/managers/session/session.py) -/

namespace SessionManager

/-- How an ensure_running invocation terminates. -/
inductive EnsureOutcome where
  | ok
  | sessionNotReady
  | createError
  | startError
deriving DecidableEq, Repr

/-- Result of an embedded ensure_running run: the outcome, the final in-memory
session object, the session states at each db.commit, and the driver calls. -/
structure EnsureResult where
  outcome : EnsureOutcome
  final : Session
  commits : List Session
  calls : List DriverCall
deriving DecidableEq, Repr

/-- The start-container phase of ensure_running (lines 150-171 of
app/managers/session/session.py): if observed_state is not RUNNING, call
driver.start; on success persist endpoint, observed_state = RUNNING and
last_observed_at; on an exception persist observed_state = FAILED and
re-raise.  The session passed here always carries a container id. -/
def startPhase (drv : DriverStub) (now : Int) (cid : String) (s : Session)
    (commits : List Session) (calls : List DriverCall) : EnsureResult :=
  if s.observed_state ≠ .running then
    match drv.startResult with
    | some ep =>
      let s3 : Session :=
        { s with endpoint := some ep, observed_state := .running,
                 last_observed_at := some now }
      { outcome := .ok, final := s3, commits := commits ++ [s3],
        calls := calls ++ [.start cid] }
    | none =>
      let s3 : Session := { s with observed_state := .failed }
      { outcome := .startError, final := s3, commits := commits ++ [s3],
        calls := calls ++ [.start cid] }
  else
    { outcome := .ok, final := s, commits := commits, calls := calls }

/-- SessionManager.ensure_running (app/managers/session/session.py, lines
94-171), embedded with the driver as an oracle.  If is_ready, the session is
returned as is; a STARTING session raises SessionNotReady; with no container
the session is marked STARTING and driver.create is called; finally the
container is started via startPhase. -/
def ensure_running (drv : DriverStub) (now : Int) (s : Session) : EnsureResult :=
  if s.is_ready then
    { outcome := .ok, final := s, commits := [], calls := [] }
  else if s.observed_state = .starting then
    { outcome := .sessionNotReady, final := s, commits := [], calls := [] }
  else
    match s.container_id with
    | none =>
      let s1 : Session :=
        { s with desired_state := .running, observed_state := .starting }
      match drv.createResult with
      | none =>
        { outcome := .createError, final := s1, commits := [s1], calls := [.create] }
      | some cid =>
        let s2 : Session := { s1 with container_id := some cid }
        startPhase drv now cid s2 [s1, s2] [.create]
    | some cid => startPhase drv now cid s [] []

/-- SessionManager.stop (app/managers/session/session.py, lines 173-191):
returns the session states at the two db.commit points together with the
driver calls made in between. -/
def stop (now : Int) (s : Session) : List Session × List DriverCall :=
  let s1 : Session := { s with desired_state := .stopped, observed_state := .stopping }
  let calls :=
    match s1.container_id with
    | some cid => [DriverCall.stop cid]
    | none => []
  let s2 : Session :=
    { s1 with observed_state := .stopped, endpoint := none, last_observed_at := some now }
  ([s1, s2], calls)

/-- SessionManager.refresh_status (app/managers/session/session.py, lines
207-236): probe the container and map its status onto the session row; the
updated row is committed. -/
def refresh_status (info : ContainerInfo) (now : Int) (s : Session) : Session :=
  match s.container_id with
  | none => s
  | some _ =>
    let s1 : Session :=
      match info.status with
      | .running => { s with observed_state := .running, endpoint := info.endpoint }
      | .created => { s with observed_state := .pending }
      | .exited => { s with observed_state := .stopped }
      | .not_found => { s with observed_state := .stopped, container_id := none }
      | .removing => s
    { s1 with last_observed_at := some now }

end SessionManager

/-- The endpoint invariant claimed by the spec for every committed session row:
a non-null endpoint implies observed_state == RUNNING. -/
def endpointInvariant (s : Session) : Prop :=
  s.endpoint ≠ none → s.observed_state = .running

instance (s : Session) : Decidable (endpointInvariant s) := by
  unfold endpointInvariant; infer_instance

/-! ## Sandbox data model -/

/-- WarmState values, used throughout app/managers/sandbox/sandbox.py and
app/services/warm_pool.  Modelled from the spec: the sandbox model file
app/models/sandbox.py is absent from src; per the spec data model,
warm_state ranges over null, AVAILABLE, CLAIMED, RETIRING. -/
inductive WarmState where
  | available
  | claimed
  | retiring
deriving DecidableEq, Repr

/-- A sandbox row.  Modelled from the spec: app/models/sandbox.py is absent
from src; the fields are the spec data-model attributes, which are exactly the
columns read and written by app/managers/sandbox/sandbox.py and
app/services/warm_pool. -/
structure SandboxRow where
  id : String
  owner : String
  profile_id : String
  cargo_id : String := ""
  current_session_id : Option String := none
  created_at : Int := 0
  last_active_at : Int := 0
  expires_at : Option Int := none
  idle_expires_at : Option Int := none
  deleted_at : Option Int := none
  is_warm_pool : Bool := false
  warm_state : Option WarmState := none
  warm_ready_at : Option Int := none
  warm_rotate_at : Option Int := none
  warm_claimed_at : Option Int := none
  warm_source_profile_id : Option String := none
deriving DecidableEq, Repr

/-- A cargo (workspace) row: persistent data volume.  Modelled from the spec:
app/models/cargo.py is absent from src; per the spec data model a workspace
has an id, an owner, a driver volume reference and a managed flag. -/
structure Cargo where
  id : String
  owner : String
  driver_ref : String := ""
  managed : Bool := false
deriving DecidableEq, Repr

/-- Update the first element satisfying p, mirroring the ORM pattern of
fetching scalars().first() and mutating that single object. -/
def updateFirst (p : α → Bool) (f : α → α) : List α → List α
  | [] => []
  | x :: xs => if p x then f x :: xs else x :: updateFirst p f xs

namespace SandboxManager

/-! ## SandboxManager.extend_ttl (app/managers/sandbox/sandbox.py, lines 357-421) -/

/-- The errors extend_ttl can raise. -/
inductive ExtendErr where
  | validation
  | notFound
  | ttlInfinite
  | expired
deriving DecidableEq, Repr

/-- Lookup predicate used by extend_ttl: matching id and owner, not soft-deleted. -/
def extendLookup (sandbox_id owner : String) (r : SandboxRow) : Bool :=
  r.id == sandbox_id && r.owner == owner && r.deleted_at == none

/-- SandboxManager.extend_ttl: validate extend_by, re-fetch the sandbox under
the per-sandbox lock, reject on infinite TTL or on an already expired sandbox,
otherwise commit expires_at = max(old, now) + extend_by.  Returns the raised
error or the updated row, together with the table after the call (unchanged on
any rejection, since the method raises before writing). -/
def extend_ttl (sandbox_id owner : String) (extend_by : Int) (now : Int)
    (db : List SandboxRow) : Except ExtendErr SandboxRow × List SandboxRow :=
  if extend_by ≤ 0 then (.error .validation, db)
  else
    match db.find? (extendLookup sandbox_id owner) with
    | none => (.error .notFound, db)
    | some sb =>
      match sb.expires_at with
      | none => (.error .ttlInfinite, db)
      | some old =>
        if old < now then (.error .expired, db)
        else
          let upd : SandboxRow := { sb with expires_at := some (max old now + extend_by) }
          (.ok upd, updateFirst (extendLookup sandbox_id owner) (fun _ => upd) db)

/-! ## SandboxManager.claim_warm_sandbox (app/managers/sandbox/sandbox.py, lines 629-738) -/

/-- Selection predicate of the candidate query: not soft-deleted, in the warm
pool, warm_state AVAILABLE, matching profile. -/
def warmSelectPred (profile_id : String) (r : SandboxRow) : Bool :=
  r.deleted_at == none && r.is_warm_pool && r.warm_state == some .available
    && r.profile_id == profile_id

/-- Strict ordering on the ORDER BY warm_ready_at ASC key (SQL nulls sort first). -/
def warmReadyLt (a b : Option Int) : Bool :=
  match a, b with
  | none, none => false
  | none, some _ => true
  | some _, none => false
  | some x, some y => x < y

/-- The candidate query: SELECT ... WHERE warmSelectPred ORDER BY warm_ready_at
ASC LIMIT 1, modelled as the first row (in table order) with the least
warm_ready_at among the matching rows. -/
def selectCandidate (profile_id : String) (db : List SandboxRow) : Option SandboxRow :=
  (db.filter (warmSelectPred profile_id)).foldl
    (fun acc r =>
      match acc with
      | none => some r
      | some b => if warmReadyLt r.warm_ready_at b.warm_ready_at then some r else some b)
    none

/-- WHERE clause of the conditional claim update: it re-asserts the candidate
id, deleted_at null, is_warm_pool true, the matching profile_id and
warm_state AVAILABLE. -/
def claimWherePred (candidate_id profile_id : String) (r : SandboxRow) : Bool :=
  r.id == candidate_id && r.deleted_at == none && r.is_warm_pool
    && r.profile_id == profile_id && r.warm_state == some .available

/-- VALUES of the conditional claim update: warm_state CLAIMED,
warm_claimed_at and last_active_at now, is_warm_pool false, owner rebound,
expires_at now + ttl when ttl is a positive number else null. -/
def claimValues (owner : String) (now : Int) (ttl : Option Int) (r : SandboxRow) : SandboxRow :=
  { r with
      warm_state := some .claimed
      warm_claimed_at := some now
      is_warm_pool := false
      owner := owner
      last_active_at := now
      expires_at :=
        match ttl with
        | some t => if 0 < t then some (now + t) else none
        | none => none }

/-- Apply the conditional update to a table, returning the new table and the
statement rowcount (number of rows matched). -/
def applyClaimUpdate (candidate_id profile_id owner : String) (now : Int)
    (ttl : Option Int) (db : List SandboxRow) : List SandboxRow × Nat :=
  (db.map (fun r => if claimWherePred candidate_id profile_id r
      then claimValues owner now ttl r else r),
   (db.filter (claimWherePred candidate_id profile_id)).length)

/-- How one claim attempt ends. -/
inductive AttemptOutcome where
  | emptySelection
  | conflict
  | success (sb : SandboxRow)
deriving DecidableEq, Repr

/-- The committed database states one claim attempt observes.  Other writers
may commit between the candidate SELECT and the conditional UPDATE, so the two
statements may see different committed states; dbSelect is the state at the
SELECT and dbUpdate the state the UPDATE lands on. -/
structure AttemptEnv where
  dbSelect : List SandboxRow
  dbUpdate : List SandboxRow
deriving Repr

/-- One attempt of claim_warm_sandbox: select a candidate (empty selection
returns null for the whole call); issue the conditional update and commit; on
rowcount 1 re-fetch by id and return it, otherwise roll back and retry. -/
def claimAttempt (owner profile_id : String) (ttl : Option Int) (now : Int)
    (env : AttemptEnv) : AttemptOutcome × List SandboxRow :=
  match selectCandidate profile_id env.dbSelect with
  | none => (.emptySelection, env.dbUpdate)
  | some cand =>
    let res := applyClaimUpdate cand.id profile_id owner now ttl env.dbUpdate
    if res.2 == 1 then
      match res.1.find? (fun r => r.id == cand.id && r.deleted_at == none) with
      | some claimed => (.success claimed, res.1)
      | none => (.conflict, res.1)
    else
      (.conflict, res.1)

/-- The attempt loop of claim_warm_sandbox (max_attempts = 3): run attempts on
the successive committed states in envs, stopping at an empty selection (null)
or a successful claim; utcnow is read once before the loop.  Returns the
result together with the outcome of every attempt actually executed. -/
def claimLoop (owner profile_id : String) (ttl : Option Int) (now : Int) :
    List AttemptEnv → Option SandboxRow × List AttemptOutcome
  | [] => (none, [])
  | env :: rest =>
    match claimAttempt owner profile_id ttl now env with
    | (.emptySelection, _) => (none, [.emptySelection])
    | (.success sb, _) => (some sb, [.success sb])
    | (.conflict, _) =>
      let r := claimLoop owner profile_id ttl now rest
      (r.1, .conflict :: r.2)

/-- SandboxManager.claim_warm_sandbox: up to 3 attempts over the provided
committed states; returns the claimed sandbox or null. -/
def claim_warm_sandbox (owner profile_id : String) (ttl : Option Int) (now : Int)
    (envs : List AttemptEnv) : Option SandboxRow :=
  (claimLoop owner profile_id ttl now (envs.take 3)).1

/-! ## SandboxManager.mark_warm_available (app/managers/sandbox/sandbox.py, lines 803-837) -/

/-- SandboxManager.mark_warm_available: fetch the sandbox by id with
is_warm_pool still true; if absent, log and return without writing; otherwise
set warm_state AVAILABLE, warm_ready_at now, warm_rotate_at now +
warm_rotate_ttl and commit. -/
def mark_warm_available (sandbox_id : String) (warm_rotate_ttl : Int) (now : Int)
    (db : List SandboxRow) : List SandboxRow :=
  match db.find? (fun r => r.id == sandbox_id && r.is_warm_pool) with
  | none => db
  | some _ =>
    updateFirst (fun r => r.id == sandbox_id && r.is_warm_pool)
      (fun r =>
        { r with
            warm_state := some .available
            warm_ready_at := some now
            warm_rotate_at := some (now + warm_rotate_ttl) })
      db

/-! ## SandboxManager.delete (app/managers/sandbox/sandbox.py, lines 487-583) -/

/-- The persistent state delete acts on: sandbox rows, session rows, cargo
rows and the driver volumes backing them. -/
structure BayDb where
  sandboxes : List SandboxRow
  sessions : List Session
  cargos : List Cargo
  volumes : List String
deriving Repr

/-- Externally observable steps of one delete call, in execution order.  The
per-sandbox lock is held from acquireLock to releaseLock (the span of the
async-with block); purgeLockEntry is the cleanup_sandbox_lock call after it. -/
inductive DeleteEvent where
  | acquireLock
  | destroySession (session_id : String)
  | softDeleteCommit
  | deleteCargo (cargo_id : String)
  | releaseLock
  | purgeLockEntry
deriving DecidableEq, Repr

/-- CargoManager.delete with force = true.  Modelled from the spec:
app/managers/cargo is absent from src; per the spec a managed workspace is
deleted together with its driver volume. -/
def cargoDelete (cargo_id : String) (db : BayDb) : BayDb :=
  match db.cargos.find? (fun c => c.id == cargo_id) with
  | none => db
  | some c =>
    { db with
        cargos := db.cargos.filter (fun x => x.id != cargo_id)
        volumes := db.volumes.filter (fun v => v != c.driver_ref) }

/-- SandboxManager.delete: under the per-sandbox lock, re-fetch the sandbox;
if missing or already soft-deleted, do nothing; otherwise destroy every
session row of the sandbox, soft-delete the sandbox (set deleted_at, clear
current_session_id), commit, and cascade-delete the cargo when it is managed
(still inside the locked block in the source); after the block, purge the
in-memory lock entry.  Returns the new state and the event trace. -/
def sandboxDelete (sandbox_id : String) (now : Int) (db : BayDb) :
    BayDb × List DeleteEvent :=
  match db.sandboxes.find? (fun r => r.id == sandbox_id) with
  | none => (db, [.acquireLock, .releaseLock, .purgeLockEntry])
  | some sb =>
    if sb.deleted_at ≠ none then (db, [.acquireLock, .releaseLock, .purgeLockEntry])
    else
      let doomed := db.sessions.filter (fun s => s.sandbox_id == sandbox_id)
      let destroyEvents := doomed.map (fun s => DeleteEvent.destroySession s.id)
      let db1 : BayDb :=
        { db with sessions := db.sessions.filter (fun s => s.sandbox_id != sandbox_id) }
      let db2 : BayDb :=
        { db1 with
            sandboxes :=
              updateFirst (fun r => r.id == sandbox_id)
                (fun r => { r with deleted_at := some now, current_session_id := none })
                db1.sandboxes }
      match db.cargos.find? (fun c => c.id == sb.cargo_id) with
      | some c =>
        if c.managed then
          (cargoDelete c.id db2,
           [DeleteEvent.acquireLock] ++ destroyEvents
             ++ [.softDeleteCommit, .deleteCargo c.id, .releaseLock, .purgeLockEntry])
        else
          (db2,
           [DeleteEvent.acquireLock] ++ destroyEvents
             ++ [.softDeleteCommit, .releaseLock, .purgeLockEntry])
      | none =>
        (db2,
         [DeleteEvent.acquireLock] ++ destroyEvents
           ++ [.softDeleteCommit, .releaseLock, .purgeLockEntry])

/-- True when every workspace deletion in the trace happens after the
per-sandbox lock is released, which is what the claim asserts. -/
def cargoDeletedOutsideLock (evs : List DeleteEvent) : Bool :=
  (evs.takeWhile (fun e => e != .releaseLock)).all
    (fun e => match e with | .deleteCargo _ => false | _ => true)

end SandboxManager

/-! ## WarmupQueue.enqueue (app/services/warm_pool/queue.py, lines 156-213) -/

namespace WarmupQueue

/-- A warmup task, from WarmupTask in app/services/warm_pool/queue.py. -/
structure WarmupTask where
  sandbox_id : String
  owner : String
deriving DecidableEq, Repr

/-- The queue drop policy.  The configuration class WarmPoolConfig is absent
from src; the two values are the literals compared against in enqueue. -/
inductive DropPolicy where
  | dropNewest
  | dropOldest
deriving DecidableEq, Repr

/-- Modelled from the spec: WarmPoolConfig (app/config.py in src predates the
warm pool and lacks it) defaults warmup_queue_drop_policy to drop_newest. -/
def defaultDropPolicy : DropPolicy := .dropNewest

/-- Queue configuration fields read by enqueue. -/
structure QueueConfig where
  max_size : Nat
  drop_policy : DropPolicy
  drop_alert_threshold : Nat
deriving Repr

/-- Mutable state of the warmup queue: the bounded FIFO (head is the oldest
task), the dedup set of pending sandbox ids, and the counters enqueue reads
or writes. -/
structure QueueState where
  queue : List WarmupTask
  pending : List String
  enqueue_total : Nat := 0
  dedup_total : Nat := 0
  drop_total : Nat := 0
deriving DecidableEq, Repr

/-- asyncio.Queue fullness: maxsize 0 means unbounded. -/
def queueFull (cfg : QueueConfig) (q : List WarmupTask) : Bool :=
  cfg.max_size != 0 && decide (cfg.max_size ≤ q.length)

/-- Result of one enqueue call: the returned boolean, the new state, and
whether the drop-alert warning event was emitted during the call. -/
structure EnqueueResult where
  accepted : Bool
  state : QueueState
  warned : Bool
deriving DecidableEq, Repr

/-- WarmupQueue.enqueue, non-blocking: dedup check first; then try put (on
success add to the dedup set); when the queue is full, count the drop, emit
the warning every drop_alert_threshold drops, and apply the drop policy:
drop_oldest evicts the head, discards its sandbox id from the dedup set and
puts the new task; drop_newest just returns false. -/
def enqueue (cfg : QueueConfig) (st : QueueState) (sandbox_id owner : String) :
    EnqueueResult :=
  if st.pending.contains sandbox_id then
    { accepted := false
      state := { st with dedup_total := st.dedup_total + 1 }
      warned := false }
  else
    let task : WarmupTask := ⟨sandbox_id, owner⟩
    if !queueFull cfg st.queue then
      { accepted := true
        state :=
          { st with
              queue := st.queue ++ [task]
              pending := st.pending ++ [sandbox_id]
              enqueue_total := st.enqueue_total + 1 }
        warned := false }
    else
      let dropped := st.drop_total + 1
      let warned := dropped % max cfg.drop_alert_threshold 1 == 0
      match cfg.drop_policy with
      | .dropOldest =>
        match st.queue with
        | evicted :: restQ =>
          { accepted := true
            state :=
              { st with
                  queue := restQ ++ [task]
                  pending :=
                    (st.pending.filter (fun x => x != evicted.sandbox_id)) ++ [sandbox_id]
                  enqueue_total := st.enqueue_total + 1
                  drop_total := dropped }
            warned := warned }
        | [] =>
          { accepted := false
            state := { st with drop_total := dropped }
            warned := warned }
      | .dropNewest =>
        { accepted := false
          state := { st with drop_total := dropped }
          warned := warned }

end WarmupQueue

/-! ## WarmPoolScheduler._maintain_profile (app/services/warm_pool/scheduler.py, lines 135-245) -/

namespace WarmPoolScheduler

/-- Profile configuration fields read by the scheduler.  ProfileConfig in the
src config.py predates the warm pool; the two warm fields are modelled from
the spec profile attributes warm_pool_size and warm_rotate_ttl. -/
structure ProfileCfg where
  id : String
  warm_pool_size : Nat
  warm_rotate_ttl : Int := 1800
deriving Repr

/-- Rows counted as available: not deleted, warm pool, warm_state AVAILABLE,
matching profile. -/
def availPred (profile_id : String) (r : SandboxRow) : Bool :=
  r.deleted_at == none && r.is_warm_pool && r.warm_state == some .available
    && r.profile_id == profile_id

/-- Rows counted as pending (in-flight warmups): not deleted, warm pool,
warm_state null, matching profile. -/
def pendingPred (profile_id : String) (r : SandboxRow) : Bool :=
  r.deleted_at == none && r.is_warm_pool && r.warm_state == none
    && r.profile_id == profile_id

/-- Rows selected for rotation: available rows whose warm_rotate_at is set and
has passed. -/
def rotatePred (profile_id : String) (now : Int) (r : SandboxRow) : Bool :=
  availPred profile_id r
    && (match r.warm_rotate_at with | some t => decide (t ≤ now) | none => false)

/-- Result of one _maintain_profile run: the table after the rotation commit,
the number of creation attempts made, the ids of the successfully created
warm sandboxes (each of which was passed to WarmupQueue.enqueue), and the ids
scheduled for retirement deletion. -/
structure MaintainResult where
  db : List SandboxRow
  attempted : Nat
  enqueued : List String
  retired : List String
deriving Repr

/-- WarmPoolScheduler._maintain_profile for one profile: count available and
pending rows, mark every rotation-due available row RETIRING and commit,
subtract the rotated rows from the local available count, compute the deficit
against warm_pool_size, and when it is positive make exactly deficit creation
attempts, enqueuing each successfully created sandbox on the shared warmup
queue; when the deficit is not positive the method returns before creating or
retiring anything.  creations is the oracle for _create_warm_sandbox: the id
returned by attempt k, or none when that attempt failed. -/
def maintain_profile (profile : ProfileCfg) (now : Int) (db : List SandboxRow)
    (creations : Nat → Option String) : MaintainResult :=
  let available : Int := (db.filter (availPred profile.id)).length
  let pending : Int := (db.filter (pendingPred profile.id)).length
  let expired := db.filter (rotatePred profile.id now)
  let db1 := db.map (fun r =>
    if rotatePred profile.id now r then { r with warm_state := some .retiring } else r)
  let available1 := available - expired.length
  let supply := max available1 0 + max pending 0
  let deficit : Int := (profile.warm_pool_size : Int) - supply
  if deficit ≤ 0 then
    { db := db1, attempted := 0, enqueued := [], retired := [] }
  else
    let successes := (List.range deficit.toNat).filterMap creations
    { db := db1
      attempted := deficit.toNat
      enqueued := successes
      retired := expired.map (fun r => r.id) }

end WarmPoolScheduler

/-! ## AdapterPool (app/router/capability/adapter_pool.py) -/

namespace AdapterPool

/-- A pool entry: the cached value and its absolute expiry time. -/
structure PoolEntry (V : Type) where
  value : V
  expires_at : Int
deriving DecidableEq, Repr

/-- Pool state: the OrderedDict of entries, oldest (least recently used)
first. -/
structure PoolState (V : Type) where
  entries : List (String × PoolEntry V)
deriving DecidableEq, Repr

/-- Lookup a key in the pool map. -/
def lookupEntry (s : PoolState V) (key : String) : Option (PoolEntry V) :=
  (s.entries.find? (fun kv => kv.1 == key)).map (fun kv => kv.2)

/-- OrderedDict.move_to_end: move the entry for key to the most recent end. -/
def moveToEnd (key : String) (l : List (String × PoolEntry V)) :
    List (String × PoolEntry V) :=
  l.filter (fun kv => kv.1 != key) ++ l.filter (fun kv => kv.1 == key)

/-- OrderedDict.pop(key, None): drop the entry for key. -/
def popKey (key : String) (l : List (String × PoolEntry V)) :
    List (String × PoolEntry V) :=
  l.filter (fun kv => kv.1 != key)

/-- AdapterPool._evict_locked: drop every expired entry, then pop from the
least-recent end until the size cap is met. -/
def evictLocked (now : Int) (max_size : Nat) (l : List (String × PoolEntry V)) :
    List (String × PoolEntry V) :=
  let live := l.filter (fun kv => decide (now < kv.2.expires_at))
  live.drop (live.length - max_size)

/-- AdapterPool.get_or_create: return the cached value when its entry has not
expired at the time of lookup, refreshing its recency; otherwise drop any
expired entry, invoke the factory (fresh is the value it builds), store it
with expiry now + ttl, evict, and return the fresh value. -/
def get_or_create (max_size : Nat) (ttl : Int) (now : Int) (key : String)
    (fresh : V) (s : PoolState V) : V × PoolState V :=
  match lookupEntry s key with
  | some e =>
    if now < e.expires_at then
      (e.value, ⟨moveToEnd key s.entries⟩)
    else
      let base := popKey key s.entries
      (fresh, ⟨evictLocked now max_size (base ++ [(key, ⟨fresh, now + ttl⟩)])⟩)
  | none =>
    (fresh, ⟨evictLocked now max_size (popKey key s.entries ++ [(key, ⟨fresh, now + ttl⟩)])⟩)

/-- AdapterPool.clear. -/
def clearPool (V : Type) : PoolState V := ⟨[]⟩

/-- One pool operation, for reasoning about arbitrary call sequences. -/
inductive PoolOp (V : Type) where
  | get (key : String) (fresh : V) (now : Int)
  | clear
deriving Repr

/-- Apply one operation to the pool state. -/
def applyOp (max_size : Nat) (ttl : Int) (s : PoolState V) : PoolOp V → PoolState V
  | .get key fresh now => (get_or_create max_size ttl now key fresh s).2
  | .clear => clearPool V

/-- Run a sequence of operations from the freshly constructed (empty) pool. -/
def runOps (max_size : Nat) (ttl : Int) (ops : List (PoolOp V)) : PoolState V :=
  ops.foldl (applyOp max_size ttl) (clearPool V)

end AdapterPool

/-! ## Concrete inputs used by the theorems below -/

/-- A session the database believes ready: observed RUNNING with an endpoint
and a container id. -/
def readySession : Session :=
  { id := "sess-1", sandbox_id := "sandbox-1", container_id := some "c-1",
    endpoint := some "http://10.0.0.5:8123", desired_state := .running,
    observed_state := .running }

/-- A session that holds a freshly created container but has not started it. -/
def createdSession : Session :=
  { id := "sess-2", sandbox_id := "sandbox-2", container_id := some "c-2",
    desired_state := .pending, observed_state := .pending }

/-- A driver whose status probe reports the container EXITED (exit code 137)
and whose start call raises. -/
def deadContainerDriver : DriverStub :=
  { createResult := some "c-new",
    startResult := none,
    statusResult := some
      { container_id := "c-1", status := .exited, exit_code := some 137 } }

/-! ## C2, C3, C4 — SessionManager behaviour at the failing inputs -/

/-- C2: the spec claims every committed session state satisfies
endpoint ≠ null → observed_state == RUNNING.  The code violates it:
refresh_status on a probe that reports EXITED commits
observed_state = STOPPED while leaving the endpoint set (and on NOT_FOUND it
clears container_id but likewise keeps the endpoint). -/
theorem refresh_status_breaks_endpoint_invariant :
    (SessionManager.refresh_status
        { container_id := "c-1", status := .exited, exit_code := some 137 }
        5 readySession).observed_state = .stopped
    ∧ (SessionManager.refresh_status
        { container_id := "c-1", status := .exited, exit_code := some 137 }
        5 readySession).endpoint = some "http://10.0.0.5:8123"
    ∧ ¬ endpointInvariant
        (SessionManager.refresh_status
          { container_id := "c-1", status := .exited, exit_code := some 137 }
          5 readySession) := by
  decide

/-- C3: the spec claims that when the start step raises, ensure_running calls
Driver.Destroy on the container, clears container_id and endpoint and
persists FAILED.  The code only persists observed_state = FAILED and
re-raises: container_id stays set and the only driver call is the failed
start, so the container is orphaned. -/
theorem ensure_running_start_failure_no_cleanup :
    (SessionManager.ensure_running deadContainerDriver 7 createdSession).outcome
        = .startError
    ∧ (SessionManager.ensure_running deadContainerDriver 7 createdSession).final
        = { createdSession with observed_state := .failed }
    ∧ (SessionManager.ensure_running deadContainerDriver 7 createdSession).final.container_id
        = some "c-2"
    ∧ (SessionManager.ensure_running deadContainerDriver 7 createdSession).calls
        = [.start "c-2"]
    ∧ (SessionManager.ensure_running deadContainerDriver 7 createdSession).commits
        = [{ createdSession with observed_state := .failed }] := by
  decide

/-- C4: the spec claims ensure_running probes Driver.Status when the session
is already ready, recreating the container on EXITED or NOT_FOUND.  The code
returns a ready session immediately: even against a driver whose status probe
would report the container EXITED, the call makes no driver call at all and
returns the session unchanged. -/
theorem ensure_running_ready_no_probe :
    SessionManager.ensure_running deadContainerDriver 7 readySession
      = { outcome := .ok, final := readySession, commits := [], calls := [] } := by
  decide

/-! ## C6 — SandboxManager.extend_ttl -/

/-- C6: for extend_by > 0 on an existing non-deleted sandbox, extend_ttl
raises sandbox_ttl_infinite when expires_at is null, raises sandbox_expired
when expires_at < now, and otherwise commits
expires_at = max(old, now) + extend_by and returns the updated sandbox; on
either rejection the table (hence expires_at) is unchanged. -/
theorem extend_ttl_spec (sandbox_id owner : String) (extend_by now : Int)
    (db : List SandboxRow) (sb : SandboxRow)
    (hpos : 0 < extend_by)
    (hfound : db.find? (SandboxManager.extendLookup sandbox_id owner) = some sb) :
    (sb.expires_at = none →
      SandboxManager.extend_ttl sandbox_id owner extend_by now db
        = (.error .ttlInfinite, db))
    ∧ (∀ old, sb.expires_at = some old → old < now →
      SandboxManager.extend_ttl sandbox_id owner extend_by now db
        = (.error .expired, db))
    ∧ (∀ old, sb.expires_at = some old → ¬ old < now →
      SandboxManager.extend_ttl sandbox_id owner extend_by now db
        = (.ok { sb with expires_at := some (max old now + extend_by) },
           updateFirst (SandboxManager.extendLookup sandbox_id owner)
             (fun _ => { sb with expires_at := some (max old now + extend_by) }) db)) := by
  refine ⟨?_, ?_, ?_⟩
  · intro hnone
    simp [SandboxManager.extend_ttl, not_le.mpr hpos, hfound, hnone]
  · intro old hold hlt
    simp [SandboxManager.extend_ttl, not_le.mpr hpos, hfound, hold, hlt]
  · intro old hold hge
    simp [SandboxManager.extend_ttl, not_le.mpr hpos, hfound, hold, hge]

/-- A sandbox row with a finite TTL, used to instantiate extend_ttl. -/
def ttlSandbox : SandboxRow :=
  { id := "sandbox-ttl", owner := "alice", profile_id := "python-default",
    expires_at := some 100 }

/-- C6 witness: extend_ttl at a concrete table.  With now = 40 the sandbox is
not yet expired, so the TTL is extended to max(100, 40) + 60 = 160. -/
theorem extend_ttl_spec_witness :
    SandboxManager.extend_ttl "sandbox-ttl" "alice" 60 40 [ttlSandbox]
      = (.ok { ttlSandbox with expires_at := some 160 },
         [{ ttlSandbox with expires_at := some 160 }]) := by
  have h := (extend_ttl_spec "sandbox-ttl" "alice" 60 40 [ttlSandbox] ttlSandbox
      (by decide) (by decide)).2.2 100 (by decide) (by decide)
  simpa [updateFirst, ttlSandbox] using h

/-! ## C9 — SandboxManager.mark_warm_available -/

/-- C9: mark_warm_available writes warm_state = AVAILABLE, warm_ready_at =
now and warm_rotate_at = now + warm_rotate_ttl onto the first row that still
has the given id with is_warm_pool = true; when every row with that id has
is_warm_pool = false (already claimed) or no row has that id, the call leaves
the table untouched, so a claimed sandbox can never re-enter the AVAILABLE
warm state. -/
theorem mark_warm_available_spec (sandbox_id : String) (warm_rotate_ttl now : Int)
    (db : List SandboxRow) :
    ((∀ r ∈ db, r.id = sandbox_id → r.is_warm_pool = false) →
      SandboxManager.mark_warm_available sandbox_id warm_rotate_ttl now db = db)
    ∧ (∀ sb, db.find? (fun r => r.id == sandbox_id && r.is_warm_pool) = some sb →
      SandboxManager.mark_warm_available sandbox_id warm_rotate_ttl now db
        = updateFirst (fun r => r.id == sandbox_id && r.is_warm_pool)
            (fun r =>
              { r with
                  warm_state := some .available
                  warm_ready_at := some now
                  warm_rotate_at := some (now + warm_rotate_ttl) }) db) := by
  constructor
  · intro hclaimed
    have hnone : db.find? (fun r => r.id == sandbox_id && r.is_warm_pool) = none := by
      rw [List.find?_eq_none]
      intro r hr
      simp only [Bool.and_eq_true, beq_iff_eq, not_and]
      intro hid
      simp [hclaimed r hr hid]
    simp [SandboxManager.mark_warm_available, hnone]
  · intro sb hfound
    simp [SandboxManager.mark_warm_available, hfound]

/-- A warm-pool sandbox whose warmup just completed. -/
def warmingSandbox : SandboxRow :=
  { id := "sandbox-warm", owner := "warm-pool", profile_id := "python-default",
    is_warm_pool := true, warm_state := none }

/-- An already claimed sandbox: is_warm_pool was atomically set to false. -/
def claimedSandbox : SandboxRow :=
  { id := "sandbox-claimed", owner := "bob", profile_id := "python-default",
    is_warm_pool := false, warm_state := some .claimed }

/-- C9 witness: marking the warming sandbox available updates its row, while
a late mark_warm_available on the already claimed sandbox is a no-op. -/
theorem mark_warm_available_spec_witness :
    SandboxManager.mark_warm_available "sandbox-warm" 1800 50
        [claimedSandbox, warmingSandbox]
      = [claimedSandbox,
         { warmingSandbox with
             warm_state := some .available
             warm_ready_at := some 50
             warm_rotate_at := some 1850 }]
    ∧ SandboxManager.mark_warm_available "sandbox-claimed" 1800 50
        [claimedSandbox, warmingSandbox]
      = [claimedSandbox, warmingSandbox] := by
  constructor
  · have h := (mark_warm_available_spec "sandbox-warm" 1800 50
        [claimedSandbox, warmingSandbox]).2 warmingSandbox (by decide)
    simpa [updateFirst, claimedSandbox, warmingSandbox] using h
  · exact (mark_warm_available_spec "sandbox-claimed" 1800 50
        [claimedSandbox, warmingSandbox]).1 (by decide)

/-! ## C7 — WarmupQueue.enqueue -/

/-- C7: enqueue returns false and only bumps dedup_total when the sandbox id
is already pending; with room it appends the task, adds the id to the dedup
set and returns true; when full, drop_oldest evicts the head, removes the
evicted id from the dedup set, puts the new task and returns true, while
drop_newest (the spec default) returns false; the drop-alert warning fires
exactly when the incremented drop counter is a multiple of the (floored)
threshold. -/
theorem warmup_enqueue_spec (cfg : WarmupQueue.QueueConfig)
    (st : WarmupQueue.QueueState) (sandbox_id owner : String) :
    (st.pending.contains sandbox_id = true →
      WarmupQueue.enqueue cfg st sandbox_id owner
        = { accepted := false
            state := { st with dedup_total := st.dedup_total + 1 }
            warned := false })
    ∧ (st.pending.contains sandbox_id = false →
        WarmupQueue.queueFull cfg st.queue = false →
      WarmupQueue.enqueue cfg st sandbox_id owner
        = { accepted := true
            state :=
              { st with
                  queue := st.queue ++ [⟨sandbox_id, owner⟩]
                  pending := st.pending ++ [sandbox_id]
                  enqueue_total := st.enqueue_total + 1 }
            warned := false })
    ∧ (st.pending.contains sandbox_id = false →
        WarmupQueue.queueFull cfg st.queue = true →
        cfg.drop_policy = .dropOldest →
        ∀ evicted restQ, st.queue = evicted :: restQ →
      WarmupQueue.enqueue cfg st sandbox_id owner
        = { accepted := true
            state :=
              { st with
                  queue := restQ ++ [⟨sandbox_id, owner⟩]
                  pending :=
                    (st.pending.filter (fun x => x != evicted.sandbox_id))
                      ++ [sandbox_id]
                  enqueue_total := st.enqueue_total + 1
                  drop_total := st.drop_total + 1 }
            warned :=
              (st.drop_total + 1) % max cfg.drop_alert_threshold 1 == 0 })
    ∧ (st.pending.contains sandbox_id = false →
        WarmupQueue.queueFull cfg st.queue = true →
        cfg.drop_policy = .dropNewest →
      WarmupQueue.enqueue cfg st sandbox_id owner
        = { accepted := false
            state := { st with drop_total := st.drop_total + 1 }
            warned :=
              (st.drop_total + 1) % max cfg.drop_alert_threshold 1 == 0 })
    ∧ WarmupQueue.defaultDropPolicy = .dropNewest := by
  refine ⟨?_, ?_, ?_, ?_, rfl⟩
  · intro hdup
    have hmem : sandbox_id ∈ st.pending := by simpa using hdup
    simp [WarmupQueue.enqueue, hmem]
  · intro hdup hroom
    have hmem : sandbox_id ∉ st.pending := by simpa using hdup
    simp [WarmupQueue.enqueue, hmem, hroom]
  · intro hdup hfull hpol evicted restQ hq
    have hmem : sandbox_id ∉ st.pending := by simpa using hdup
    rw [hq] at hfull
    simp [WarmupQueue.enqueue, hmem, hfull, hpol, hq]
  · intro hdup hfull hpol
    have hmem : sandbox_id ∉ st.pending := by simpa using hdup
    simp [WarmupQueue.enqueue, hmem, hfull, hpol]

/-- A full two-slot queue configuration with the drop_oldest policy and an
alert every 2 drops. -/
def fullQueueCfg : WarmupQueue.QueueConfig :=
  { max_size := 2, drop_policy := .dropOldest, drop_alert_threshold := 2 }

/-- A queue state at capacity, holding tasks for sandboxes a and b. -/
def fullQueueState : WarmupQueue.QueueState :=
  { queue := [⟨"sandbox-a", "warm-pool"⟩, ⟨"sandbox-b", "warm-pool"⟩]
    pending := ["sandbox-a", "sandbox-b"]
    enqueue_total := 2
    drop_total := 1 }

/-- C7 witness: enqueuing sandbox-c into the full drop_oldest queue evicts
sandbox-a, removes it from the dedup set, accepts the new task, and (this
being the second drop with threshold 2) emits the warning. -/
theorem warmup_enqueue_spec_witness :
    WarmupQueue.enqueue fullQueueCfg fullQueueState "sandbox-c" "warm-pool"
      = { accepted := true
          state :=
            { queue := [⟨"sandbox-b", "warm-pool"⟩, ⟨"sandbox-c", "warm-pool"⟩]
              pending := ["sandbox-b", "sandbox-c"]
              enqueue_total := 3
              dedup_total := 0
              drop_total := 2 }
          warned := true } := by
  have h := (warmup_enqueue_spec fullQueueCfg fullQueueState
      "sandbox-c" "warm-pool").2.2.1 (by decide) (by decide) rfl
      ⟨"sandbox-a", "warm-pool"⟩ [⟨"sandbox-b", "warm-pool"⟩] rfl
  simpa [fullQueueCfg, fullQueueState] using h

/-! ## C5 — SandboxManager.delete -/

/-- A live sandbox row owning the managed cargo below. -/
def liveSandboxRow : SandboxRow :=
  { id := "sandbox-live", owner := "alice", profile_id := "python-default",
    cargo_id := "cargo-1", current_session_id := some "sess-live" }

/-- The managed cargo of the live sandbox, backed by volume vol-1. -/
def liveCargo : Cargo :=
  { id := "cargo-1", owner := "alice", driver_ref := "vol-1", managed := true }

/-- A state with one live sandbox, its running session and its managed cargo,
for exercising the delete cascade. -/
def liveDb : SandboxManager.BayDb :=
  { sandboxes := [liveSandboxRow]
    sessions :=
      [{ id := "sess-live", sandbox_id := "sandbox-live",
         container_id := some "c-live", endpoint := some "http://e:8123",
         observed_state := .running }]
    cargos := [liveCargo]
    volumes := ["vol-1"] }

/-- C5 counterexample: the claim places the managed-workspace deletion
outside the per-sandbox lock, but in the code the cascade runs inside the
async-with block: on a live sandbox with a managed cargo the trace contains
the deleteCargo event before releaseLock. -/
theorem sandbox_delete_inside_lock_counterexample :
    SandboxManager.DeleteEvent.deleteCargo "cargo-1"
        ∈ (SandboxManager.sandboxDelete "sandbox-live" 9 liveDb).2
    ∧ SandboxManager.cargoDeletedOutsideLock
        (SandboxManager.sandboxDelete "sandbox-live" 9 liveDb).2 = false := by
  decide

/-- C5 amended: delete destroys every session row of the sandbox, soft-deletes
it (sets deleted_at, clears current_session_id), and then — still inside the
per-sandbox lock, after the soft-delete commit and before the lock is
released — deletes the workspace together with its driver volume iff the
workspace is managed; an external workspace is never cascade-deleted; on an
already soft-deleted or missing sandbox the call is a no-op; the in-memory
lock entry is purged after the locked block in every case. -/
theorem sandbox_delete_spec (sandbox_id : String) (now : Int)
    (db : SandboxManager.BayDb) :
    (db.sandboxes.find? (fun r => r.id == sandbox_id) = none →
      SandboxManager.sandboxDelete sandbox_id now db
        = (db, [.acquireLock, .releaseLock, .purgeLockEntry]))
    ∧ (∀ sb, db.sandboxes.find? (fun r => r.id == sandbox_id) = some sb →
        sb.deleted_at ≠ none →
      SandboxManager.sandboxDelete sandbox_id now db
        = (db, [.acquireLock, .releaseLock, .purgeLockEntry]))
    ∧ (∀ sb, db.sandboxes.find? (fun r => r.id == sandbox_id) = some sb →
        sb.deleted_at = none →
        (SandboxManager.sandboxDelete sandbox_id now db).1.sessions
            = db.sessions.filter (fun s => s.sandbox_id != sandbox_id)
        ∧ (SandboxManager.sandboxDelete sandbox_id now db).1.sandboxes
            = updateFirst (fun r => r.id == sandbox_id)
                (fun r => { r with deleted_at := some now, current_session_id := none })
                db.sandboxes
        ∧ (∀ c, db.cargos.find? (fun x => x.id == sb.cargo_id) = some c →
            (c.managed = true →
              (SandboxManager.sandboxDelete sandbox_id now db).1.cargos
                  = db.cargos.filter (fun x => x.id != c.id)
              ∧ (SandboxManager.sandboxDelete sandbox_id now db).1.volumes
                  = db.volumes.filter (fun v => v != c.driver_ref)
              ∧ (SandboxManager.sandboxDelete sandbox_id now db).2
                  = [SandboxManager.DeleteEvent.acquireLock]
                    ++ (db.sessions.filter (fun s => s.sandbox_id == sandbox_id)).map
                        (fun s => SandboxManager.DeleteEvent.destroySession s.id)
                    ++ [.softDeleteCommit, .deleteCargo c.id, .releaseLock, .purgeLockEntry])
            ∧ (c.managed = false →
              (SandboxManager.sandboxDelete sandbox_id now db).1.cargos = db.cargos
              ∧ (SandboxManager.sandboxDelete sandbox_id now db).1.volumes = db.volumes
              ∧ (SandboxManager.sandboxDelete sandbox_id now db).2
                  = [SandboxManager.DeleteEvent.acquireLock]
                    ++ (db.sessions.filter (fun s => s.sandbox_id == sandbox_id)).map
                        (fun s => SandboxManager.DeleteEvent.destroySession s.id)
                    ++ [.softDeleteCommit, .releaseLock, .purgeLockEntry]))) := by
  refine ⟨?_, ?_, ?_⟩
  · intro hnone
    simp [SandboxManager.sandboxDelete, hnone]
  · intro sb hfound hdel
    simp [SandboxManager.sandboxDelete, hfound, hdel]
  · intro sb hfound hlive
    cases hc : db.cargos.find? (fun x => x.id == sb.cargo_id) with
    | none =>
      refine ⟨?_, ?_, ?_⟩
      · simp [SandboxManager.sandboxDelete, hfound, hlive, hc]
      · simp [SandboxManager.sandboxDelete, hfound, hlive, hc]
      · intro c hcc
        exact absurd hcc (by simp)
    | some c =>
      have hcid : c.id = sb.cargo_id := by
        have := List.find?_some hc
        simpa using this
      have hfind2 : db.cargos.find? (fun x => x.id == c.id) = some c := by
        have hpred : (fun x : Cargo => x.id == c.id)
            = (fun x : Cargo => x.id == sb.cargo_id) := by
          funext x
          rw [hcid]
        rw [hpred]
        exact hc
      cases hm : c.managed with
      | false =>
        refine ⟨?_, ?_, ?_⟩
        · simp [SandboxManager.sandboxDelete, hfound, hlive, hc, hm]
        · simp [SandboxManager.sandboxDelete, hfound, hlive, hc, hm]
        · intro c' hcc
          have hce : c' = c := (Option.some.inj hcc).symm
          subst hce
          refine ⟨fun hmm => absurd (hm.symm.trans hmm) (by simp), fun _ => ?_⟩
          simp [SandboxManager.sandboxDelete, hfound, hlive, hc, hm]
      | true =>
        refine ⟨?_, ?_, ?_⟩
        · simp [SandboxManager.sandboxDelete, hfound, hlive, hc, hm,
                SandboxManager.cargoDelete, hfind2]
        · simp [SandboxManager.sandboxDelete, hfound, hlive, hc, hm,
                SandboxManager.cargoDelete, hfind2]
        · intro c' hcc
          have hce : c' = c := (Option.some.inj hcc).symm
          subst hce
          refine ⟨fun _ => ?_, fun hmm => absurd (hm.symm.trans hmm) (by simp)⟩
          refine ⟨?_, ?_, ?_⟩
          · simp [SandboxManager.sandboxDelete, hfound, hlive, hc, hm,
                  SandboxManager.cargoDelete, hfind2]
          · simp [SandboxManager.sandboxDelete, hfound, hlive, hc, hm,
                  SandboxManager.cargoDelete, hfind2]
          · simp [SandboxManager.sandboxDelete, hfound, hlive, hc, hm,
                  SandboxManager.cargoDelete, hfind2]

/-- C5 witness: deleting the live sandbox removes its session row, removes
the managed cargo and its volume, and produces the locked-block event trace
with the cargo deletion between the soft-delete commit and the lock release. -/
theorem sandbox_delete_spec_witness :
    (SandboxManager.sandboxDelete "sandbox-live" 9 liveDb).1.sessions = []
    ∧ (SandboxManager.sandboxDelete "sandbox-live" 9 liveDb).1.sandboxes
        = [{ liveSandboxRow with deleted_at := some 9, current_session_id := none }]
    ∧ (SandboxManager.sandboxDelete "sandbox-live" 9 liveDb).1.cargos = []
    ∧ (SandboxManager.sandboxDelete "sandbox-live" 9 liveDb).1.volumes = []
    ∧ (SandboxManager.sandboxDelete "sandbox-live" 9 liveDb).2
        = [.acquireLock, .destroySession "sess-live", .softDeleteCommit,
           .deleteCargo "cargo-1", .releaseLock, .purgeLockEntry] := by
  have h := (sandbox_delete_spec "sandbox-live" 9 liveDb).2.2 liveSandboxRow
      (by decide) (by decide)
  have hc := (h.2.2 liveCargo (by decide)).1 (by decide)
  exact ⟨h.1.trans (by decide), h.2.1.trans (by decide), hc.1.trans (by decide),
         hc.2.1.trans (by decide), hc.2.2.trans (by decide)⟩

/-! ## C8 — WarmPoolScheduler._maintain_profile -/

/-- Filtering with a stronger predicate keeps at most as many elements. -/
theorem filter_length_mono (l : List α) (p q : α → Bool)
    (h : ∀ a, p a = true → q a = true) :
    (l.filter p).length ≤ (l.filter q).length := by
  induction l with
  | nil => simp
  | cons x xs ih =>
    by_cases hp : p x = true
    · simp [List.filter_cons, hp, h x hp]
      omega
    · have hp0 : p x = false := by
        revert hp
        cases p x <;> simp
      cases hq : q x <;> simp [List.filter_cons, hp0, hq] <;> omega

/-- Rotation-due rows are available rows. -/
theorem rotatePred_imp_availPred (profile_id : String) (now : Int) :
    ∀ r, WarmPoolScheduler.rotatePred profile_id now r = true →
      WarmPoolScheduler.availPred profile_id r = true := by
  intro r hr
  unfold WarmPoolScheduler.rotatePred at hr
  exact (Bool.and_eq_true _ _ |>.mp hr).1

/-- C8: one _maintain_profile run for a profile with warm_pool_size > 0 marks
every AVAILABLE warm sandbox of the profile whose warm_rotate_at has passed
as RETIRING, and computes the deficit d = warm_pool_size − (available +
pending) with the rotated rows already subtracted from the available count;
when d ≤ 0 it attempts no creation and enqueues nothing, otherwise it makes
exactly d creation attempts and enqueues exactly the successfully created
sandbox ids on the shared warmup queue. -/
theorem maintain_profile_spec (profile : WarmPoolScheduler.ProfileCfg) (now : Int)
    (db : List SandboxRow) (creations : Nat → Option String)
    (_hsize : 0 < profile.warm_pool_size) :
    ((WarmPoolScheduler.maintain_profile profile now db creations).db
        = db.map (fun r =>
            if WarmPoolScheduler.rotatePred profile.id now r
            then { r with warm_state := some .retiring } else r))
    ∧ ((profile.warm_pool_size : Int)
          - ((((db.filter (WarmPoolScheduler.availPred profile.id)).length : Int)
              - ((db.filter (WarmPoolScheduler.rotatePred profile.id now)).length : Int))
             + ((db.filter (WarmPoolScheduler.pendingPred profile.id)).length : Int)) ≤ 0 →
        (WarmPoolScheduler.maintain_profile profile now db creations).attempted = 0
        ∧ (WarmPoolScheduler.maintain_profile profile now db creations).enqueued = [])
    ∧ (0 < (profile.warm_pool_size : Int)
          - ((((db.filter (WarmPoolScheduler.availPred profile.id)).length : Int)
              - ((db.filter (WarmPoolScheduler.rotatePred profile.id now)).length : Int))
             + ((db.filter (WarmPoolScheduler.pendingPred profile.id)).length : Int)) →
        (WarmPoolScheduler.maintain_profile profile now db creations).attempted
          = ((profile.warm_pool_size : Int)
              - ((((db.filter (WarmPoolScheduler.availPred profile.id)).length : Int)
                  - ((db.filter (WarmPoolScheduler.rotatePred profile.id now)).length : Int))
                 + ((db.filter (WarmPoolScheduler.pendingPred profile.id)).length : Int))).toNat
        ∧ (WarmPoolScheduler.maintain_profile profile now db creations).enqueued
          = (List.range
              ((profile.warm_pool_size : Int)
                - ((((db.filter (WarmPoolScheduler.availPred profile.id)).length : Int)
                    - ((db.filter (WarmPoolScheduler.rotatePred profile.id now)).length : Int))
                   + ((db.filter (WarmPoolScheduler.pendingPred profile.id)).length : Int))).toNat).filterMap
              creations) := by
  have hAR : (db.filter (WarmPoolScheduler.rotatePred profile.id now)).length
      ≤ (db.filter (WarmPoolScheduler.availPred profile.id)).length :=
    filter_length_mono db _ _ (rotatePred_imp_availPred profile.id now)
  have h1 : max (((db.filter (WarmPoolScheduler.availPred profile.id)).length : Int)
        - ((db.filter (WarmPoolScheduler.rotatePred profile.id now)).length : Int)) 0
      = ((db.filter (WarmPoolScheduler.availPred profile.id)).length : Int)
        - ((db.filter (WarmPoolScheduler.rotatePred profile.id now)).length : Int) := by
    have : (0 : Int) ≤ ((db.filter (WarmPoolScheduler.availPred profile.id)).length : Int)
        - ((db.filter (WarmPoolScheduler.rotatePred profile.id now)).length : Int) := by
      omega
    exact max_eq_left this
  have h2 : max ((db.filter (WarmPoolScheduler.pendingPred profile.id)).length : Int) 0
      = ((db.filter (WarmPoolScheduler.pendingPred profile.id)).length : Int) :=
    max_eq_left (Int.natCast_nonneg _)
  refine ⟨?_, ?_, ?_⟩
  · simp only [WarmPoolScheduler.maintain_profile]
    split <;> rfl
  · intro hd
    simp only [WarmPoolScheduler.maintain_profile, h1, h2]
    rw [if_pos hd]
    exact ⟨rfl, rfl⟩
  · intro hd
    simp only [WarmPoolScheduler.maintain_profile, h1, h2]
    rw [if_neg (not_le.mpr hd)]
    exact ⟨rfl, rfl⟩

/-- A stale AVAILABLE warm sandbox whose rotation time has passed. -/
def staleWarmSandbox : SandboxRow :=
  { id := "sandbox-stale", owner := "warm-pool", profile_id := "python-default",
    is_warm_pool := true, warm_state := some .available,
    warm_ready_at := some 10, warm_rotate_at := some 20 }

/-- The scheduler profile used by the witness: target pool size 2. -/
def witnessProfile : WarmPoolScheduler.ProfileCfg :=
  { id := "python-default", warm_pool_size := 2 }

/-- Creation oracle for the witness: attempt 0 succeeds, attempt 1 fails. -/
def witnessCreations : Nat → Option String
  | 0 => some "sandbox-new-0"
  | _ => none

/-- C8 witness: with one stale AVAILABLE sandbox and target 2, the stale row
is rotated to RETIRING, the deficit is 2 − ((1 − 1) + 0) = 2, two creation
attempts are made and the one successful sandbox is enqueued. -/
theorem maintain_profile_spec_witness :
    (WarmPoolScheduler.maintain_profile witnessProfile 30 [staleWarmSandbox]
        witnessCreations).db
      = [{ staleWarmSandbox with warm_state := some .retiring }]
    ∧ (WarmPoolScheduler.maintain_profile witnessProfile 30 [staleWarmSandbox]
        witnessCreations).attempted = 2
    ∧ (WarmPoolScheduler.maintain_profile witnessProfile 30 [staleWarmSandbox]
        witnessCreations).enqueued = ["sandbox-new-0"] := by
  have h := maintain_profile_spec witnessProfile 30 [staleWarmSandbox]
      witnessCreations (by decide)
  have h3 := h.2.2 (by decide)
  refine ⟨h.1.trans (by decide), ?_, ?_⟩
  · exact h3.1.trans (by decide)
  · refine h3.2.trans ?_
    decide

/-! ## C10 — AdapterPool -/

namespace AdapterPool

/-- The two key-partition filters of moveToEnd together preserve length. -/
theorem length_filter_key_split (key : String) (l : List (String × PoolEntry V)) :
    (l.filter (fun kv => kv.1 != key)).length
      + (l.filter (fun kv => kv.1 == key)).length = l.length := by
  induction l with
  | nil => rfl
  | cons x xs ih =>
    cases hx : x.1 == key with
    | true =>
      have hbne : (x.1 != key) = false := by simp [bne, hx]
      simp [List.filter_cons, hx, hbne]
      omega
    | false =>
      have hbne : (x.1 != key) = true := by simp [bne, hx]
      simp [List.filter_cons, hx, hbne]
      omega

/-- moveToEnd only reorders: the length is unchanged. -/
theorem length_moveToEnd (key : String) (l : List (String × PoolEntry V)) :
    (moveToEnd key l).length = l.length := by
  unfold moveToEnd
  rw [List.length_append]
  exact length_filter_key_split key l

/-- After eviction the pool holds at most max_size entries. -/
theorem evictLocked_length_le (now : Int) (max_size : Nat)
    (l : List (String × PoolEntry V)) :
    (evictLocked now max_size l).length ≤ max_size := by
  unfold evictLocked
  rw [List.length_drop]
  omega

/-- One pool operation keeps the size bound. -/
theorem applyOp_length_le (max_size : Nat) (ttl : Int) (s : PoolState V)
    (op : PoolOp V) (hs : s.entries.length ≤ max_size) :
    (applyOp max_size ttl s op).entries.length ≤ max_size := by
  cases op with
  | clear => simp [applyOp, clearPool]
  | get key fresh now =>
    simp only [applyOp, get_or_create]
    cases h : lookupEntry s key with
    | none =>
      simp only [h]
      exact evictLocked_length_le now max_size _
    | some e =>
      simp only [h]
      by_cases hlive : now < e.expires_at
      · simp only [if_pos hlive]
        simpa [length_moveToEnd] using hs
      · simp only [if_neg hlive]
        exact evictLocked_length_le now max_size _

/-- find? skips a prefix in which no element matches. -/
theorem find?_append_of_none {p : α → Bool} {l₁ : List α} (l₂ : List α)
    (h : l₁.find? p = none) : (l₁ ++ l₂).find? p = l₂.find? p := by
  induction l₁ with
  | nil => rfl
  | cons x xs ih =>
    cases hx : p x with
    | true => simp [List.find?_cons, hx] at h
    | false =>
      simp only [List.find?_cons, hx] at h
      rw [List.cons_append]
      simp only [List.find?_cons, hx]
      exact ih h

/-- Inserting a fresh non-expired entry at the recent end of a list free of
the key stores it: the entry survives eviction and is found under the key. -/
theorem lookup_after_insert (max_size : Nat) (ttl now : Int) (key : String)
    (fresh : V) (l : List (String × PoolEntry V)) (hM : 0 < max_size)
    (hT : 0 < ttl) (hl : ∀ kv ∈ l, (kv.1 == key) = false) :
    lookupEntry
        (⟨evictLocked now max_size (l ++ [(key, ⟨fresh, now + ttl⟩)])⟩ : PoolState V)
        key = some ⟨fresh, now + ttl⟩ := by
  unfold lookupEntry evictLocked
  have hfk : (([(key, (⟨fresh, now + ttl⟩ : PoolEntry V))]).filter
      (fun kv => decide (now < kv.2.expires_at))) = [(key, ⟨fresh, now + ttl⟩)] := by
    simp only [List.filter_cons, List.filter_nil]
    have : decide (now < now + ttl) = true := by
      rw [decide_eq_true_eq]
      omega
    rw [this]
    rfl
  rw [List.filter_append, hfk]
  set A := l.filter (fun kv => decide (now < kv.2.expires_at)) with hA
  rw [List.drop_append_eq_append_drop]
  have hdrop2 : (A ++ [(key, (⟨fresh, now + ttl⟩ : PoolEntry V))]).length
      - max_size - A.length = 0 := by
    rw [List.length_append]
    simp only [List.length_cons, List.length_nil]
    omega
  rw [hdrop2, List.drop_zero]
  have hnone : (A.drop ((A ++ [(key, (⟨fresh, now + ttl⟩ : PoolEntry V))]).length
      - max_size)).find? (fun kv => kv.1 == key) = none := by
    rw [List.find?_eq_none]
    intro kv hkv
    have hmemA : kv ∈ A := List.mem_of_mem_drop hkv
    have hmem : kv ∈ l := (List.mem_filter.mp (hA ▸ hmemA)).1
    simp [hl kv hmem]
  rw [find?_append_of_none _ hnone]
  simp

end AdapterPool

/-- C10: an AdapterPool with max_size M > 0 and ttl T > 0 never grows past M
entries under any sequence of get_or_create and clear calls, returns a cached
value only while its entry is unexpired at the time of lookup, and for an
absent or expired key invokes the factory, returns the fresh value and stores
it with expiry now + T. -/
theorem adapter_pool_spec {V : Type} (M : Nat) (T : Int) (hM : 0 < M) (hT : 0 < T) :
    (∀ ops : List (AdapterPool.PoolOp V),
      (AdapterPool.runOps M T ops).entries.length ≤ M)
    ∧ (∀ (s : AdapterPool.PoolState V) (key : String) (fresh : V) (now : Int)
          (e : AdapterPool.PoolEntry V),
        AdapterPool.lookupEntry s key = some e → now < e.expires_at →
        (AdapterPool.get_or_create M T now key fresh s).1 = e.value)
    ∧ (∀ (s : AdapterPool.PoolState V) (key : String) (fresh : V) (now : Int),
        AdapterPool.lookupEntry s key = none →
        (AdapterPool.get_or_create M T now key fresh s).1 = fresh
        ∧ AdapterPool.lookupEntry (AdapterPool.get_or_create M T now key fresh s).2 key
            = some ⟨fresh, now + T⟩)
    ∧ (∀ (s : AdapterPool.PoolState V) (key : String) (fresh : V) (now : Int)
          (e : AdapterPool.PoolEntry V),
        AdapterPool.lookupEntry s key = some e → e.expires_at ≤ now →
        (AdapterPool.get_or_create M T now key fresh s).1 = fresh
        ∧ AdapterPool.lookupEntry (AdapterPool.get_or_create M T now key fresh s).2 key
            = some ⟨fresh, now + T⟩) := by
  have hpop : ∀ (s : AdapterPool.PoolState V) (key : String),
      ∀ kv ∈ AdapterPool.popKey key s.entries, (kv.1 == key) = false := by
    intro s key kv hkv
    have := (List.mem_filter.mp hkv).2
    simpa [bne] using this
  refine ⟨?_, ?_, ?_, ?_⟩
  · intro ops
    suffices hgen : ∀ (ops : List (AdapterPool.PoolOp V)) (s : AdapterPool.PoolState V),
        s.entries.length ≤ M →
        (ops.foldl (AdapterPool.applyOp M T) s).entries.length ≤ M by
      exact hgen ops (AdapterPool.clearPool V) (by simp [AdapterPool.clearPool])
    intro ops
    induction ops with
    | nil => intro s hs; simpa
    | cons op rest ih =>
      intro s hs
      exact ih _ (AdapterPool.applyOp_length_le M T s op hs)
  · intro s key fresh now e he hlive
    simp [AdapterPool.get_or_create, he, hlive]
  · intro s key fresh now he
    refine ⟨by simp [AdapterPool.get_or_create, he], ?_⟩
    simp only [AdapterPool.get_or_create, he]
    exact AdapterPool.lookup_after_insert M T now key fresh _ hM hT (hpop s key)
  · intro s key fresh now e he hexp
    have hlive : ¬ now < e.expires_at := by omega
    refine ⟨by simp [AdapterPool.get_or_create, he, hlive], ?_⟩
    simp only [AdapterPool.get_or_create, he, if_neg hlive]
    exact AdapterPool.lookup_after_insert M T now key fresh _ hM hT (hpop s key)

/-- C10 witness: on a two-entry pool with capacity 2 and ttl 10, looking up a
live key returns the cached value, while a lookup of the expired key at time
12 rebuilds the entry; and a run of three inserts from the empty pool stays
within the capacity bound. -/
theorem adapter_pool_spec_witness :
    (AdapterPool.runOps (V := Nat) 2 10
        [.get "a" 1 0, .get "b" 2 1, .get "c" 3 2]).entries.length ≤ 2
    ∧ (AdapterPool.get_or_create (V := Nat) 2 10 4 "a" 9
        ⟨[("a", ⟨7, 10⟩)]⟩).1 = 7
    ∧ (AdapterPool.get_or_create (V := Nat) 2 10 12 "a" 9
        ⟨[("a", ⟨7, 10⟩)]⟩).1 = 9
    ∧ AdapterPool.lookupEntry
        (AdapterPool.get_or_create (V := Nat) 2 10 12 "a" 9 ⟨[("a", ⟨7, 10⟩)]⟩).2 "a"
        = some ⟨9, 22⟩ := by
  have h := adapter_pool_spec (V := Nat) 2 10 (by decide) (by decide)
  have hexp := h.2.2.2 ⟨[("a", ⟨7, 10⟩)]⟩ "a" 9 12 ⟨7, 10⟩ (by decide) (by decide)
  exact ⟨h.1 [.get "a" 1 0, .get "b" 2 1, .get "c" 3 2],
         h.2.1 ⟨[("a", ⟨7, 10⟩)]⟩ "a" 9 4 ⟨7, 10⟩ (by decide) (by decide),
         hexp.1, hexp.2⟩

/-! ## C1 — SandboxManager.claim_warm_sandbox -/

namespace SandboxManager

/-- After the conditional update, the re-fetch by candidate id finds exactly
the updated row, provided ids are unique in the table. -/
theorem find_after_claim_update (cand_id profile_id owner : String) (now : Int)
    (ttl : Option Int) (l : List SandboxRow)
    (hn : (l.map (fun r => r.id)).Nodup)
    (pre : SandboxRow) (hm : pre ∈ l)
    (hp : claimWherePred cand_id profile_id pre = true) :
    (l.map (fun r => if claimWherePred cand_id profile_id r
        then claimValues owner now ttl r else r)).find?
      (fun r => r.id == cand_id && r.deleted_at == none)
      = some (claimValues owner now ttl pre) := by
  have hid : pre.id = cand_id := by
    simp only [claimWherePred, Bool.and_eq_true, beq_iff_eq] at hp
    exact hp.1.1.1.1
  have hdel : pre.deleted_at = none := by
    simp only [claimWherePred, Bool.and_eq_true, beq_iff_eq] at hp
    exact hp.1.1.1.2
  induction l with
  | nil => exact absurd hm (by simp)
  | cons x xs ih =>
    rcases List.mem_cons.mp hm with hhead | htail
    · subst hhead
      simp only [List.map_cons, if_pos hp, List.find?_cons]
      have hfp : ((claimValues owner now ttl pre).id == cand_id
          && (claimValues owner now ttl pre).deleted_at == none) = true := by
        simp [claimValues, hid, hdel]
      rw [hfp]
    · have hxid : x.id ≠ cand_id := by
        have hx : x.id ∉ xs.map (fun r => r.id) := by
          simp only [List.map_cons, List.nodup_cons] at hn
          exact hn.1
        have : pre.id ∈ xs.map (fun r => r.id) := List.mem_map_of_mem _ htail
        intro hcontra
        rw [← hid] at hcontra
        exact hx (hcontra ▸ this)
      have hxfp : (((if claimWherePred cand_id profile_id x
          then claimValues owner now ttl x else x).id == cand_id)
          && ((if claimWherePred cand_id profile_id x
          then claimValues owner now ttl x else x).deleted_at == none)) = false := by
        by_cases hcx : claimWherePred cand_id profile_id x = true
        · simp [hcx, claimValues, hxid]
        · simp [hcx, hxid]
      simp only [List.map_cons, List.find?_cons, hxfp]
      have hn2 : (xs.map (fun r => r.id)).Nodup := by
        simp only [List.map_cons, List.nodup_cons] at hn
        exact hn.2
      exact ih hn2 htail

/-- A successful claim attempt arises from a conditional update that matched
exactly one row satisfying the WHERE predicate, and the returned sandbox is
that row with the claim VALUES applied. -/
theorem claimAttempt_success (owner profile_id : String) (ttl : Option Int)
    (now : Int) (env : AttemptEnv) (sb : SandboxRow)
    (hn : (env.dbUpdate.map (fun r => r.id)).Nodup)
    (h : (claimAttempt owner profile_id ttl now env).1 = .success sb) :
    ∃ pre ∈ env.dbUpdate,
      claimWherePred pre.id profile_id pre = true
      ∧ (env.dbUpdate.filter (claimWherePred pre.id profile_id)).length = 1
      ∧ sb = claimValues owner now ttl pre := by
  unfold claimAttempt at h
  cases hsel : selectCandidate profile_id env.dbSelect with
  | none =>
    rw [hsel] at h
    exact absurd h (by simp)
  | some cand =>
    rw [hsel] at h
    simp only [applyClaimUpdate] at h
    by_cases hcnt :
        ((env.dbUpdate.filter (claimWherePred cand.id profile_id)).length == 1) = true
    · have hlen1 : (env.dbUpdate.filter (claimWherePred cand.id profile_id)).length = 1 := by
        simpa using hcnt
      have hex : ∃ pre, pre ∈ env.dbUpdate.filter (claimWherePred cand.id profile_id) := by
        cases hf : env.dbUpdate.filter (claimWherePred cand.id profile_id) with
        | nil => rw [hf] at hlen1; simp at hlen1
        | cons p rest => exact ⟨p, List.mem_cons_self p rest⟩
      obtain ⟨pre, hprefilter⟩ := hex
      have hmem : pre ∈ env.dbUpdate := (List.mem_filter.mp hprefilter).1
      have hpred : claimWherePred cand.id profile_id pre = true :=
        (List.mem_filter.mp hprefilter).2
      have hpe : pre.id = cand.id := by
        simp only [claimWherePred, Bool.and_eq_true, beq_iff_eq] at hpred
        exact hpred.1.1.1.1
      have hfind := find_after_claim_update cand.id profile_id owner now ttl
        env.dbUpdate hn pre hmem hpred
      rw [hcnt, if_pos rfl] at h
      rw [hfind] at h
      simp only at h
      refine ⟨pre, hmem, ?_, ?_, ?_⟩
      · rw [hpe]; exact hpred
      · rw [hpe]; exact hlen1
      · exact (AttemptOutcome.success.inj h).symm
    · have hcnt' :
          ((env.dbUpdate.filter (claimWherePred cand.id profile_id)).length == 1) = false := by
        revert hcnt
        cases (env.dbUpdate.filter (claimWherePred cand.id profile_id)).length == 1 <;> simp
      rw [hcnt'] at h
      simp at h

/-- A some-result of the attempt loop comes from a successful attempt on one
of the supplied committed states. -/
theorem claimLoop_success (owner profile_id : String) (ttl : Option Int) (now : Int)
    (envs : List AttemptEnv) (sb : SandboxRow)
    (h : (claimLoop owner profile_id ttl now envs).1 = some sb) :
    ∃ env ∈ envs, (claimAttempt owner profile_id ttl now env).1 = .success sb := by
  induction envs with
  | nil => simp [claimLoop] at h
  | cons e rest ih =>
    unfold claimLoop at h
    cases hatt : (claimAttempt owner profile_id ttl now e).1 with
    | emptySelection =>
      rcases hpair : claimAttempt owner profile_id ttl now e with ⟨o, dbx⟩
      rw [hpair] at h hatt
      simp only at hatt
      subst hatt
      simp at h
    | success sb2 =>
      rcases hpair : claimAttempt owner profile_id ttl now e with ⟨o, dbx⟩
      rw [hpair] at h hatt
      simp only at hatt
      subst hatt
      simp only at h
      exact ⟨e, List.mem_cons_self e rest, by rw [hpair]; simpa using h⟩
    | conflict =>
      rcases hpair : claimAttempt owner profile_id ttl now e with ⟨o, dbx⟩
      rw [hpair] at h hatt
      simp only at hatt
      subst hatt
      simp only at h
      obtain ⟨env, henv, hsucc⟩ := ih h
      exact ⟨env, List.mem_cons_of_mem e henv, hsucc⟩

/-- When every attempt conflicts, the loop returns null. -/
theorem claimLoop_none_of_all_conflict (owner profile_id : String) (ttl : Option Int)
    (now : Int) (envs : List AttemptEnv)
    (h : ∀ env ∈ envs, (claimAttempt owner profile_id ttl now env).1 = .conflict) :
    (claimLoop owner profile_id ttl now envs).1 = none := by
  induction envs with
  | nil => simp [claimLoop]
  | cons e rest ih =>
    unfold claimLoop
    rcases hpair : claimAttempt owner profile_id ttl now e with ⟨o, dbx⟩
    have he : o = .conflict := by
      have := h e (List.mem_cons_self e rest)
      rw [hpair] at this
      simpa using this
    subst he
    simpa using ih (fun env henv => h env (List.mem_cons_of_mem e henv))

/-- When the loop reaches an attempt whose candidate selection is empty
(every earlier attempt having conflicted), it returns null. -/
theorem claimLoop_none_of_reach_empty (owner profile_id : String) (ttl : Option Int)
    (now : Int) (envs1 : List AttemptEnv) (env : AttemptEnv) (envs2 : List AttemptEnv)
    (hconf : ∀ e ∈ envs1, (claimAttempt owner profile_id ttl now e).1 = .conflict)
    (hempty : (claimAttempt owner profile_id ttl now env).1 = .emptySelection) :
    (claimLoop owner profile_id ttl now (envs1 ++ env :: envs2)).1 = none := by
  induction envs1 with
  | nil =>
    simp only [List.nil_append]
    unfold claimLoop
    rcases hpair : claimAttempt owner profile_id ttl now env with ⟨o, dbx⟩
    have he : o = .emptySelection := by
      rw [hpair] at hempty
      simpa using hempty
    subst he
    simp
  | cons e rest ih =>
    simp only [List.cons_append]
    unfold claimLoop
    rcases hpair : claimAttempt owner profile_id ttl now e with ⟨o, dbx⟩
    have he : o = .conflict := by
      have := hconf e (List.mem_cons_self e rest)
      rw [hpair] at this
      simpa using this
    subst he
    simpa using ih (fun x hx => hconf x (List.mem_cons_of_mem e hx))

end SandboxManager

/-- C1: whenever claim_warm_sandbox returns a sandbox, that sandbox is the
image under the claim VALUES (warm_state CLAIMED, is_warm_pool false, owner
rebound, warm_claimed_at and last_active_at now, expires_at now + ttl for a
positive ttl else null) of a row that satisfied the conditional-update WHERE
clause (is_warm_pool true, warm_state AVAILABLE, matching profile_id,
deleted_at null), the update having matched exactly that one row; and the
call returns null rather than raising both when the attempt reached finds an
empty selection and when the conditional update matches zero rows on each of
the 3 attempts. -/
theorem claim_warm_sandbox_spec (owner profile_id : String) (ttl : Option Int)
    (now : Int) (envs : List SandboxManager.AttemptEnv)
    (hlen : envs.length = 3)
    (hnodup : ∀ env ∈ envs, (env.dbUpdate.map (fun r => r.id)).Nodup) :
    (∀ sb, SandboxManager.claim_warm_sandbox owner profile_id ttl now envs = some sb →
      ∃ env ∈ envs, ∃ pre ∈ env.dbUpdate,
        SandboxManager.claimWherePred pre.id profile_id pre = true
        ∧ (env.dbUpdate.filter (SandboxManager.claimWherePred pre.id profile_id)).length = 1
        ∧ sb = SandboxManager.claimValues owner now ttl pre
        ∧ sb.warm_state = some .claimed
        ∧ sb.is_warm_pool = false
        ∧ sb.owner = owner
        ∧ sb.warm_claimed_at = some now
        ∧ sb.last_active_at = now
        ∧ sb.expires_at
            = (match ttl with
               | some t => if 0 < t then some (now + t) else none
               | none => none))
    ∧ (∀ envs1 env envs2, envs = envs1 ++ env :: envs2 →
        (∀ e ∈ envs1,
          (SandboxManager.claimAttempt owner profile_id ttl now e).1 = .conflict) →
        (SandboxManager.claimAttempt owner profile_id ttl now env).1 = .emptySelection →
        SandboxManager.claim_warm_sandbox owner profile_id ttl now envs = none)
    ∧ ((∀ env ∈ envs,
          (SandboxManager.claimAttempt owner profile_id ttl now env).1 = .conflict) →
        SandboxManager.claim_warm_sandbox owner profile_id ttl now envs = none) := by
  have htake : envs.take 3 = envs := by
    rw [← hlen]
    exact List.take_length envs
  refine ⟨?_, ?_, ?_⟩
  · intro sb hres
    unfold SandboxManager.claim_warm_sandbox at hres
    rw [htake] at hres
    obtain ⟨env, henv, hsucc⟩ :=
      SandboxManager.claimLoop_success owner profile_id ttl now envs sb hres
    obtain ⟨pre, hmem, hpred, hone, hval⟩ :=
      SandboxManager.claimAttempt_success owner profile_id ttl now env sb
        (hnodup env henv) hsucc
    subst hval
    refine ⟨env, henv, pre, hmem, hpred, hone, rfl, ?_, ?_, ?_, ?_, ?_, ?_⟩
      <;> simp [SandboxManager.claimValues]
  · intro envs1 env envs2 hsplit hconf hempty
    unfold SandboxManager.claim_warm_sandbox
    rw [htake, hsplit]
    exact SandboxManager.claimLoop_none_of_reach_empty owner profile_id ttl now
      envs1 env envs2 hconf hempty
  · intro hconf
    unfold SandboxManager.claim_warm_sandbox
    rw [htake]
    exact SandboxManager.claimLoop_none_of_all_conflict owner profile_id ttl now
      envs hconf

/-- An AVAILABLE warm sandbox ready to be claimed. -/
def availableWarmRow : SandboxRow :=
  { id := "sandbox-w1", owner := "warm-pool", profile_id := "python-default",
    cargo_id := "cargo-w1", is_warm_pool := true, warm_state := some .available,
    warm_ready_at := some 10, warm_source_profile_id := some "python-default" }

/-- The committed state each claim attempt of the witness sees: the single
available warm row, unchanged between the SELECT and the UPDATE. -/
def quietEnv : SandboxManager.AttemptEnv :=
  { dbSelect := [availableWarmRow], dbUpdate := [availableWarmRow] }

/-- C1 witness: claiming against the quiet one-row pool at now = 100 with
ttl = 300 succeeds, and the theorem exhibits the matched row and the applied
claim VALUES. -/
theorem claim_warm_sandbox_spec_witness :
    ∃ env ∈ [quietEnv, quietEnv, quietEnv], ∃ pre ∈ env.dbUpdate,
      SandboxManager.claimWherePred pre.id "python-default" pre = true
      ∧ (env.dbUpdate.filter
          (SandboxManager.claimWherePred pre.id "python-default")).length = 1
      ∧ SandboxManager.claimValues "alice" 100 (some 300) availableWarmRow
          = SandboxManager.claimValues "alice" 100 (some 300) pre
      ∧ (SandboxManager.claimValues "alice" 100 (some 300) availableWarmRow).warm_state
          = some .claimed
      ∧ (SandboxManager.claimValues "alice" 100 (some 300) availableWarmRow).is_warm_pool
          = false
      ∧ (SandboxManager.claimValues "alice" 100 (some 300) availableWarmRow).owner
          = "alice"
      ∧ (SandboxManager.claimValues "alice" 100 (some 300) availableWarmRow).warm_claimed_at
          = some 100
      ∧ (SandboxManager.claimValues "alice" 100 (some 300) availableWarmRow).last_active_at
          = 100
      ∧ (SandboxManager.claimValues "alice" 100 (some 300) availableWarmRow).expires_at
          = (match (some 300 : Option Int) with
             | some t => if 0 < t then some (100 + t) else none
             | none => none) :=
  (claim_warm_sandbox_spec "alice" "python-default" (some 300) 100
      [quietEnv, quietEnv, quietEnv] (by decide) (by decide)).1
    (SandboxManager.claimValues "alice" 100 (some 300) availableWarmRow)
    (by decide)

end Shipyard
